import Mathlib

/-!
Shallow embedding of `build.js`, the PLDB build orchestration script.

The script is a linear driver: step 1 builds the parsers file, step 2
patches scroll-cli on Windows, step 3 builds the root folder, step 4
generates feature pages (the bridging step), step 5 builds each declared
subfolder in order, tolerating per-subfolder failures.  With `--serve`
the script first writes a maintenance page to the root `index.html` and
spawns a background static server, then runs the build; the promise
handlers decide the exit status and whether the server process is killed.

The embedding splits the script in two facets:
  * a trace semantics (`build`, `mainScript`) recording the generator
    invocations, warning lines, server spawn/kill and exit status, with
    the outcomes of the external commands given by an `Env` oracle;
  * a filesystem semantics (`FS`, `patchScrollCliIfNeeded`,
    `writeMaintenancePage`) for the two functions whose effect is writing
    files rather than running generators.
-/

namespace PldbBuild

/-- The workspace root directory (`__dirname` of build.js). -/
def ROOT : String := "ROOT"

/-- Value of `path.join(ROOT, "node_modules", "scroll-cli", "scroll.js")`. -/
def SCROLL_CLI : String := ROOT ++ "/node_modules/scroll-cli/scroll.js"

/-- build.js line 21.  Build order matters: creators must be before lists. -/
def SUBFOLDERS : List String :=
  ["blog", "books", "concepts", "creators", "features", "lists", "pages"]

/-- Model of `path.join(a, b)` as used by the script (posix separator). -/
def pathJoin (a b : String) : String := a ++ "/" ++ b

/-- The command run by step 1 (`node cli.js buildParsersFile`). -/
def parsersCmd : String := "node cli.js buildParsersFile"

/-- The generator command run by step 3 and by every subfolder build. -/
def scrollBuildCmd : String := "node \"" ++ SCROLL_CLI ++ "\" build"

/-- Observable events of one run of the script. -/
inductive Event where
  /-- An external generator invocation `cmd` with working directory `cwd`
      (the `run`/`runQuiet` helpers). -/
  | run (cmd : String) (cwd : String)
  /-- Step 4: `Tables.writeAllFeaturePages()` (the bridging step). -/
  | bridging
  /-- The per-unit failure line `⚠️ dir/ build had errors (continuing...)`. -/
  | warn (dir : String)
  /-- The final `✅ Build complete in ...s` line. -/
  | complete
  /-- Write of the maintenance page to the root index.html
      (`writeMaintenancePage`). -/
  | writeIndexHtml
  /-- Spawn of the `npx serve .` child process (`startBackgroundServer`). -/
  | spawnServer
  /-- Kill of the spawned server process (`serverProcess.kill()`). -/
  | killServer
  deriving DecidableEq, Repr

/-- The environment oracle: outcomes of everything external to the script.
    `portBound` records whether another process already holds port 3000 at
    start; note the script itself never consults it. -/
structure Env where
  platform : String
  /-- Result of `fs.existsSync` on a directory path. -/
  dirExists : String → Bool
  /-- Whether `execSync` of a command in a working directory exits 0. -/
  execOk : String → String → Bool
  /-- Whether `Tables.writeAllFeaturePages()` returns without throwing. -/
  bridgingOk : Bool
  /-- Whether port 3000 is already bound by another process at start. -/
  portBound : Bool

/-- Step 5 of `build()`: for each dir in order, if the folder exists run the
    generator there; on failure print the warning line and continue. -/
def subfolderLoop (env : Env) : List String → List Event
  | [] => []
  | d :: rest =>
      (if env.dirExists (pathJoin ROOT d) then
        Event.run scrollBuildCmd (pathJoin ROOT d) ::
          (if env.execOk scrollBuildCmd (pathJoin ROOT d) then []
           else [Event.warn d])
      else []) ++ subfolderLoop env rest

/-- The `build()` function: the event trace and whether the promise
    resolves (`true`) or rejects (`false`).  Step 2 (`patchScrollCliIfNeeded`) only touches the
    filesystem and is modelled separately below. -/
def build (env : Env) : List Event × Bool :=
  if env.execOk parsersCmd ROOT then
    if env.execOk scrollBuildCmd ROOT then
      if env.bridgingOk then
        ([Event.run parsersCmd ROOT, Event.run scrollBuildCmd ROOT,
          Event.bridging] ++ subfolderLoop env SUBFOLDERS ++ [Event.complete],
         true)
      else
        ([Event.run parsersCmd ROOT, Event.run scrollBuildCmd ROOT,
          Event.bridging], false)
    else
      ([Event.run parsersCmd ROOT, Event.run scrollBuildCmd ROOT], false)
  else
    ([Event.run parsersCmd ROOT], false)

/-- Final state of one run of the script. -/
structure MainState where
  events : List Event
  /-- Whether the spawned server process is still running when the script
      reaches its final handler (before any operator SIGINT). -/
  serverAlive : Bool
  /-- Whether the `.then` handler registered the SIGINT handler. -/
  sigintRegistered : Bool
  /-- Holds `some n` if the script called `process.exit(n)`; `none` if the process
      is left to terminate naturally (status 0 once the event loop drains). -/
  exit : Option Nat
  deriving Repr

/-- The top-level script: optional maintenance-page setup and server spawn,
    then `build()` with its `.then`/`.catch` handlers. -/
def mainScript (env : Env) (serve : Bool) : MainState :=
  let pre : List Event :=
    if serve then [Event.writeIndexHtml, Event.spawnServer] else []
  if (build env).2 then
    { events := pre ++ (build env).1
      serverAlive := serve
      sigintRegistered := serve
      exit := none }
  else
    { events := pre ++ (build env).1 ++ (if serve then [Event.killServer] else [])
      serverAlive := false
      sigintRegistered := false
      exit := some 1 }

/-- The process exit status: an explicit `process.exit(n)` argument, or 0 on
    natural termination. -/
def exitStatus (s : MainState) : Nat := s.exit.getD 0

/-- The SIGINT handler registered by the `.then` branch: kill the server and
    `process.exit(0)`.  A no-op when it was never registered. -/
def handleSigint (s : MainState) : MainState :=
  if s.sigintRegistered then { s with serverAlive := false, exit := some 0 }
  else s

/-! ### Filesystem facet -/

/-- A filesystem: path to file content, `none` when the path does not exist. -/
def FS : Type := String → Option String

/-- Model of `fs.writeFileSync` (creates or overwrites). -/
def FS.write (fs : FS) (p c : String) : FS :=
  fun q => if q = p then some c else fs q

/-- Model of `String.prototype.includes`. -/
def includes (s pat : String) : Bool := (s.splitOn pat).length > 1

def dirnamePat : String := "Utils.posix.dirname(this.filePath)"

def dirnameRepl : String := "require(\"path\").dirname(this.filePath)"

def basenamePat : String := "Utils.posix.basename(this.filePath)"

def basenameRepl : String := "require(\"path\").basename(this.filePath)"

/-- The two global regex replacements applied to a file content (the regexes
    in build.js are literal strings with escaped dots). -/
def patchContent (c : String) : String :=
  (c.replace dirnamePat dirnameRepl).replace basenamePat basenameRepl

def rootParsersPath : String :=
  ROOT ++ "/node_modules/scroll-cli/parsers/root.parsers"

def nestedParsersPath : String :=
  ROOT ++ "/node_modules/scroll-cli/node_modules/scroll-cli/parsers/root.parsers"

/-- Step 2: `patchScrollCliIfNeeded()`, as a filesystem transformer. -/
def patchScrollCliIfNeeded (platform : String) (fs : FS) : FS :=
  if platform ≠ "win32" then fs
  else
    match fs rootParsersPath with
    | none => fs
    | some content =>
      if includes content "Utils.posix.dirname" then
        let fs1 := FS.write fs rootParsersPath (patchContent content)
        match fs1 nestedParsersPath with
        | none => fs1
        | some nested => FS.write fs1 nestedParsersPath (patchContent nested)
      else fs

def indexHtmlPath : String := ROOT ++ "/index.html"

/-- The maintenance page markup written by `writeMaintenancePage()`
    (braces escaped). -/
def maintenanceHtml : String :=
  "<!DOCTYPE html>\n<html lang=\"en\">\n<head>\n  <meta charset=\"UTF-8\">\n  <meta name=\"viewport\" content=\"width=device-width, initial-scale=1.0\">\n  <title>PLDB - Building...</title>\n  <style>\n    body \x7b\n      font-family: -apple-system, BlinkMacSystemFont, \"Segoe UI\", Roboto, sans-serif;\n      display: flex;\n      justify-content: center;\n      align-items: center;\n      min-height: 100vh;\n      margin: 0;\n      background-color: #f5f5f5;\n      color: #333;\n    \x7d\n    .container \x7b text-align: center; padding: 2rem; \x7d\n    h1 \x7b font-size: 2rem; margin-bottom: 0.5rem; \x7d\n    p \x7b font-size: 1.2rem; color: #666; \x7d\n    .spinner \x7b\n      margin: 2rem auto;\n      width: 40px;\n      height: 40px;\n      border: 4px solid #ddd;\n      border-top-color: #333;\n      border-radius: 50%;\n      animation: spin 1s linear infinite;\n    \x7d\n    @keyframes spin \x7b to \x7b transform: rotate(360deg); \x7d \x7d\n  </style>\n  <meta http-equiv=\"refresh\" content=\"10\">\n</head>\n<body>\n  <div class=\"container\">\n    <h1>PLDB</h1>\n    <div class=\"spinner\"></div>\n    <p>Site is rebuilding. This page will refresh automatically.</p>\n  </div>\n</body>\n</html>"

/-- The `writeMaintenancePage` function: write the maintenance page to the
    root index.html. -/
def writeMaintenancePage (fs : FS) : FS :=
  FS.write fs indexHtmlPath maintenanceHtml

/-! ### Helper lemmas about the trace -/

lemma subfolderLoop_append (env : Env) (l1 l2 : List String) :
    subfolderLoop env (l1 ++ l2) = subfolderLoop env l1 ++ subfolderLoop env l2 := by
  induction l1 with
  | nil => simp [subfolderLoop]
  | cons d rest ih => simp [subfolderLoop, ih]

lemma pathJoin_right_inj {a d d' : String} (h : pathJoin a d = pathJoin a d') :
    d = d' := by
  unfold pathJoin at h
  have hd := congrArg String.data h
  simp only [String.data_append] at hd
  exact String.ext (List.append_cancel_left hd)

lemma pathJoin_ne_ROOT (d : String) : pathJoin ROOT d ≠ ROOT := by
  intro h
  have hl := congrArg String.length h
  rw [pathJoin, String.length_append, String.length_append] at hl
  have h4 : ROOT.length = 4 := rfl
  have h1 : ("/" : String).length = 1 := rfl
  omega

lemma run_mem_subfolderLoop {env : Env} {c p : String} {dirs : List String} :
    Event.run c p ∈ subfolderLoop env dirs ↔
      ∃ d ∈ dirs, c = scrollBuildCmd ∧ p = pathJoin ROOT d ∧
        env.dirExists (pathJoin ROOT d) = true := by
  induction dirs with
  | nil => simp [subfolderLoop]
  | cons d rest ih =>
    by_cases hd : env.dirExists (pathJoin ROOT d) <;>
      by_cases he : env.execOk scrollBuildCmd (pathJoin ROOT d) <;>
        simp [subfolderLoop, hd, he, ih]

lemma warn_mem_subfolderLoop {env : Env} {u : String} {dirs : List String} :
    Event.warn u ∈ subfolderLoop env dirs ↔
      u ∈ dirs ∧ env.dirExists (pathJoin ROOT u) = true ∧
        env.execOk scrollBuildCmd (pathJoin ROOT u) = false := by
  induction dirs with
  | nil => simp [subfolderLoop]
  | cons d rest ih =>
    simp only [subfolderLoop, List.mem_append]
    constructor
    · rintro (h | h)
      · by_cases hd : env.dirExists (pathJoin ROOT d)
        · rw [if_pos hd] at h
          rcases List.mem_cons.mp h with h | h
          · exact absurd h (by simp)
          · by_cases he : env.execOk scrollBuildCmd (pathJoin ROOT d)
            · rw [if_pos he] at h
              exact absurd h (List.not_mem_nil _)
            · rw [if_neg he] at h
              have hud : u = d := by
                have h2 := List.mem_singleton.mp h
                injection h2
              subst hud
              exact ⟨List.mem_cons_self u rest, hd, by simpa using he⟩
        · rw [if_neg hd] at h
          exact absurd h (List.not_mem_nil _)
      · obtain ⟨h1, h2, h3⟩ := ih.mp h
        exact ⟨List.mem_cons_of_mem d h1, h2, h3⟩
    · rintro ⟨h1, h2, h3⟩
      rcases List.mem_cons.mp h1 with rfl | h1
      · left
        rw [if_pos h2, if_neg (by simp [h3])]
        exact List.mem_cons_of_mem _ (List.mem_singleton.mpr rfl)
      · right
        exact ih.mpr ⟨h1, h2, h3⟩

lemma mem_subfolderLoop_run_or_warn {env : Env} {e : Event} {dirs : List String}
    (h : e ∈ subfolderLoop env dirs) :
    (∃ c p, e = Event.run c p) ∨ (∃ u, e = Event.warn u) := by
  induction dirs with
  | nil => simp [subfolderLoop] at h
  | cons d rest ih =>
    simp only [subfolderLoop, List.mem_append] at h
    rcases h with h | h
    · split at h
      · rcases List.mem_cons.mp h with h | h
        · exact Or.inl ⟨_, _, h⟩
        · split at h
          · simp at h
          · simp only [List.mem_singleton] at h
            exact Or.inr ⟨_, h⟩
      · simp at h
    · exact ih h

/-- Holds when `e1` occurs strictly before every occurrence of `e2` in `l`. -/
def occursBefore (e1 e2 : Event) (l : List Event) : Prop :=
  ∀ n : Nat, l[n]? = some e2 → ∃ m : Nat, m < n ∧ l[m]? = some e1

lemma occursBefore_of_not_mem {e1 e2 : Event} {l : List Event} (h : e2 ∉ l) :
    occursBefore e1 e2 l := by
  unfold occursBefore
  intro n hn
  exact absurd (List.getElem?_mem hn) h

lemma occursBefore_append {e1 e2 : Event} {A B : List Event}
    (h1 : e1 ∈ A) (h2 : e2 ∉ A) : occursBefore e1 e2 (A ++ B) := by
  unfold occursBefore
  intro n hn
  obtain ⟨m, hm⟩ := List.mem_iff_getElem?.mp h1
  have hmA : m < A.length := (List.getElem?_eq_some.mp hm).1
  refine ⟨m, ?_, ?_⟩
  · by_contra hcon
    push_neg at hcon
    have hnA : n < A.length := lt_of_le_of_lt hcon hmA
    rw [List.getElem?_append_left hnA] at hn
    exact h2 (List.getElem?_mem hn)
  · rw [List.getElem?_append_left hmA]
    exact hm

/-! ### Concrete environments used as test inputs -/

/-- Everything external succeeds, every folder exists. -/
def envOK : Env :=
  { platform := "linux", dirExists := fun _ => true, execOk := fun _ _ => true,
    bridgingOk := true, portBound := false }

/-- Only `blog`, `books`, `concepts` exist; the `books` generator fails;
    everything else succeeds (the A-success, B-fail, C-success scenario). -/
def envB : Env :=
  { platform := "linux"
    dirExists := fun p =>
      p == pathJoin ROOT "blog" || p == pathJoin ROOT "books" ||
        p == pathJoin ROOT "concepts"
    execOk := fun c p => !(c == scrollBuildCmd && p == pathJoin ROOT "books")
    bridgingOk := true
    portBound := false }

/-- The root folder build (step 3) fails; everything else succeeds. -/
def envF : Env :=
  { platform := "linux", dirExists := fun _ => true
    execOk := fun c p => !(c == scrollBuildCmd && p == ROOT)
    bridgingOk := true
    portBound := false }

/-- Every external command succeeds but the bridging step (step 4) fails. -/
def envG : Env :=
  { platform := "linux", dirExists := fun _ => true, execOk := fun _ _ => true,
    bridgingOk := false, portBound := false }

/-- Everything succeeds but port 3000 is already bound by another process. -/
def envP : Env :=
  { platform := "linux", dirExists := fun _ => true, execOk := fun _ _ => true,
    bridgingOk := true, portBound := true }

/-- Every folder exists and exactly one subfolder generator (books) fails. -/
def envW : Env :=
  { platform := "linux", dirExists := fun _ => true
    execOk := fun c p => !(c == scrollBuildCmd && p == pathJoin ROOT "books")
    bridgingOk := true
    portBound := false }

/-- The empty filesystem. -/
def fsEmpty : FS := fun _ => none

/-! ### Trace-shape lemmas -/

lemma build_ok_iff {env : Env} :
    (build env).2 = true ↔
      env.execOk parsersCmd ROOT = true ∧
        env.execOk scrollBuildCmd ROOT = true ∧ env.bridgingOk = true := by
  by_cases h1 : env.execOk parsersCmd ROOT <;>
    by_cases h3 : env.execOk scrollBuildCmd ROOT <;>
      by_cases h4 : env.bridgingOk <;> simp [build, h1, h3, h4]

lemma build_ok_events {env : Env}
    (h1 : env.execOk parsersCmd ROOT = true)
    (h3 : env.execOk scrollBuildCmd ROOT = true)
    (h4 : env.bridgingOk = true) :
    (build env).1 =
      [Event.run parsersCmd ROOT, Event.run scrollBuildCmd ROOT,
        Event.bridging] ++ subfolderLoop env SUBFOLDERS ++ [Event.complete] := by
  simp [build, h1, h3, h4]

lemma mainScript_ok {env : Env} {serve : Bool} (h : (build env).2 = true) :
    mainScript env serve =
      { events := (if serve then [Event.writeIndexHtml, Event.spawnServer]
            else []) ++ (build env).1
        serverAlive := serve
        sigintRegistered := serve
        exit := none } := by
  simp [mainScript, h]

lemma mainScript_fail {env : Env} {serve : Bool} (h : (build env).2 = false) :
    mainScript env serve =
      { events := (if serve then [Event.writeIndexHtml, Event.spawnServer]
            else []) ++ (build env).1 ++
            (if serve then [Event.killServer] else [])
        serverAlive := false
        sigintRegistered := false
        exit := some 1 } := by
  simp [mainScript, h]

lemma mainScript_ok_events_split {env : Env} {serve : Bool}
    (h1 : env.execOk parsersCmd ROOT = true)
    (h3 : env.execOk scrollBuildCmd ROOT = true)
    (h4 : env.bridgingOk = true) :
    (mainScript env serve).events =
      ((if serve then [Event.writeIndexHtml, Event.spawnServer] else []) ++
          ([Event.run parsersCmd ROOT, Event.run scrollBuildCmd ROOT,
              Event.bridging] ++
            subfolderLoop env ["blog", "books", "concepts", "creators"])) ++
        (subfolderLoop env ["features", "lists", "pages"] ++ [Event.complete]) := by
  have hb : (build env).2 = true := build_ok_iff.mpr ⟨h1, h3, h4⟩
  have hs : SUBFOLDERS =
      ["blog", "books", "concepts", "creators"] ++ ["features", "lists", "pages"] :=
    rfl
  rw [mainScript_ok hb]
  simp only [build_ok_events h1 h3 h4, hs, subfolderLoop_append, List.append_assoc]

/-- C1: in every run where both the creators and the lists directories exist,
the generator invocation for creators occurs strictly before the one for
lists (every lists invocation in the trace is preceded by a creators
invocation). -/
theorem creators_generator_before_lists_generator (env : Env) (serve : Bool)
    (hc : env.dirExists (pathJoin ROOT "creators") = true)
    (hl : env.dirExists (pathJoin ROOT "lists") = true) :
    occursBefore (Event.run scrollBuildCmd (pathJoin ROOT "creators"))
      (Event.run scrollBuildCmd (pathJoin ROOT "lists"))
      (mainScript env serve).events := by
  by_cases hb : (build env).2 = true
  · obtain ⟨h1, h3, h4⟩ := build_ok_iff.mp hb
    rw [mainScript_ok_events_split h1 h3 h4]
    apply occursBefore_append
    · refine List.mem_append_right _ (List.mem_append_right _ ?_)
      exact run_mem_subfolderLoop.mpr ⟨"creators", by simp, rfl, rfl, hc⟩
    · intro hmem
      rcases List.mem_append.mp hmem with hmem | hmem
      · by_cases hserve : serve
        · rw [if_pos hserve] at hmem
          exact absurd hmem (by decide)
        · rw [if_neg hserve] at hmem
          exact absurd hmem (by decide)
      · rcases List.mem_append.mp hmem with hmem | hmem
        · exact absurd hmem (by decide)
        · obtain ⟨d, hd, _, hp, _⟩ := run_mem_subfolderLoop.mp hmem
          obtain rfl : "lists" = d := pathJoin_right_inj hp
          exact absurd hd (by decide)
  · apply occursBefore_of_not_mem
    have hb2 : (build env).2 = false := by simpa using hb
    rw [mainScript_fail hb2]
    intro hmem
    rcases List.mem_append.mp hmem with hmem | hmem
    · rcases List.mem_append.mp hmem with hmem | hmem
      · by_cases hserve : serve
        · rw [if_pos hserve] at hmem
          exact absurd hmem (by decide)
        · rw [if_neg hserve] at hmem
          exact absurd hmem (by decide)
      · by_cases h1 : env.execOk parsersCmd ROOT <;>
          by_cases h3 : env.execOk scrollBuildCmd ROOT <;>
            by_cases h4 : env.bridgingOk <;>
              simp [build, h1, h3, h4] at hmem hb2 <;>
                exact absurd hmem (by decide)
    · by_cases hserve : serve
      · rw [if_pos hserve] at hmem
        exact absurd hmem (by decide)
      · rw [if_neg hserve] at hmem
        exact absurd hmem (by decide)

/-- C1 witness: the hypotheses hold and the theorem applies at `envOK`. -/
theorem creators_generator_before_lists_generator_witness :
    envOK.dirExists (pathJoin ROOT "creators") = true ∧
      envOK.dirExists (pathJoin ROOT "lists") = true ∧
      occursBefore (Event.run scrollBuildCmd (pathJoin ROOT "creators"))
        (Event.run scrollBuildCmd (pathJoin ROOT "lists"))
        (mainScript envOK false).events :=
  ⟨rfl, rfl, creators_generator_before_lists_generator envOK false rfl rfl⟩

lemma mainScript_ok_events_false {env : Env}
    (h1 : env.execOk parsersCmd ROOT = true)
    (h3 : env.execOk scrollBuildCmd ROOT = true)
    (h4 : env.bridgingOk = true) :
    (mainScript env false).events =
      Event.run parsersCmd ROOT :: Event.run scrollBuildCmd ROOT ::
        Event.bridging :: (subfolderLoop env SUBFOLDERS ++ [Event.complete]) := by
  have hb : (build env).2 = true := build_ok_iff.mpr ⟨h1, h3, h4⟩
  rw [mainScript_ok hb]
  simp [build_ok_events h1 h3 h4]

/-- C2: if the root folder build (step 3) fails, no subfolder generator is
ever invoked and the process exits with a non-zero status. -/
theorem root_failure_short_circuits (env : Env) (serve : Bool)
    (h : env.execOk scrollBuildCmd ROOT = false) :
    (∀ d ∈ SUBFOLDERS,
        Event.run scrollBuildCmd (pathJoin ROOT d) ∉
          (mainScript env serve).events) ∧
      (mainScript env serve).exit = some 1 := by
  have hb2 : (build env).2 = false := by
    by_cases h1 : env.execOk parsersCmd ROOT <;> simp [build, h1, h]
  rw [mainScript_fail hb2]
  refine ⟨?_, rfl⟩
  intro d _ hmem
  simp only [List.mem_append] at hmem
  rcases hmem with (hmem | hmem) | hmem
  · by_cases hserve : serve
    · rw [if_pos hserve] at hmem
      simp at hmem
    · rw [if_neg hserve] at hmem
      simp at hmem
  · by_cases h1 : env.execOk parsersCmd ROOT
    · simp [build, h1, h] at hmem
      rcases hmem with ⟨hc, hp⟩ | hp
      · exact pathJoin_ne_ROOT d hp
      · exact pathJoin_ne_ROOT d hp
    · simp [build, h1, h] at hmem
      exact pathJoin_ne_ROOT d hmem.2
  · by_cases hserve : serve
    · rw [if_pos hserve] at hmem
      simp at hmem
    · rw [if_neg hserve] at hmem
      simp at hmem

/-- C2 witness: at `envF` (root build fails) the hypothesis holds and the
theorem applies. -/
theorem root_failure_short_circuits_witness :
    envF.execOk scrollBuildCmd ROOT = false ∧
      ((∀ d ∈ SUBFOLDERS,
          Event.run scrollBuildCmd (pathJoin ROOT d) ∉
            (mainScript envF false).events) ∧
        (mainScript envF false).exit = some 1) :=
  ⟨by decide, root_failure_short_circuits envF false (by decide)⟩

/-- C3: when the root and bridging steps succeed and exactly one subfolder
generator fails, every existing subfolder is still attempted and the process
exits with status 0. -/
theorem single_subfolder_failure_is_isolated (env : Env)
    (h1 : env.execOk parsersCmd ROOT = true)
    (h3 : env.execOk scrollBuildCmd ROOT = true)
    (h4 : env.bridgingOk = true)
    (hone : ∃! d, d ∈ SUBFOLDERS ∧ env.dirExists (pathJoin ROOT d) = true ∧
        env.execOk scrollBuildCmd (pathJoin ROOT d) = false) :
    (∀ d ∈ SUBFOLDERS, env.dirExists (pathJoin ROOT d) = true →
        Event.run scrollBuildCmd (pathJoin ROOT d) ∈
          (mainScript env false).events) ∧
      exitStatus (mainScript env false) = 0 := by
  have hb : (build env).2 = true := build_ok_iff.mpr ⟨h1, h3, h4⟩
  constructor
  · intro d hd hex
    rw [mainScript_ok_events_false h1 h3 h4]
    refine List.mem_cons_of_mem _ (List.mem_cons_of_mem _ (List.mem_cons_of_mem _
      (List.mem_append_left _ ?_)))
    exact run_mem_subfolderLoop.mpr ⟨d, hd, rfl, rfl, hex⟩
  · simp [exitStatus, mainScript_ok hb]

/-- C3 witness: at `envW` (only the books generator fails) the hypotheses
hold and the theorem applies. -/
theorem single_subfolder_failure_is_isolated_witness :
    (∃! d, d ∈ SUBFOLDERS ∧ envW.dirExists (pathJoin ROOT d) = true ∧
        envW.execOk scrollBuildCmd (pathJoin ROOT d) = false) ∧
      ((∀ d ∈ SUBFOLDERS, envW.dirExists (pathJoin ROOT d) = true →
          Event.run scrollBuildCmd (pathJoin ROOT d) ∈
            (mainScript envW false).events) ∧
        exitStatus (mainScript envW false) = 0) := by
  have hone : ∃! d, d ∈ SUBFOLDERS ∧ envW.dirExists (pathJoin ROOT d) = true ∧
      envW.execOk scrollBuildCmd (pathJoin ROOT d) = false := by
    refine ⟨"books", ⟨by decide, by decide, by decide⟩, ?_⟩
    rintro y ⟨hy1, hy2, hy3⟩
    fin_cases hy1 <;> first | rfl | exact absurd hy3 (by decide)
  exact ⟨hone,
    single_subfolder_failure_is_isolated envW (by decide) (by decide) rfl hone⟩

/-- C8: a declared subfolder whose directory is missing is silently skipped:
no generator invocation for it, no warning line for it, and (when the fatal
steps succeed) the run exits with status 0. -/
theorem missing_subfolder_silently_skipped (env : Env) (d : String)
    (hd : d ∈ SUBFOLDERS)
    (hne : env.dirExists (pathJoin ROOT d) = false)
    (h1 : env.execOk parsersCmd ROOT = true)
    (h3 : env.execOk scrollBuildCmd ROOT = true)
    (h4 : env.bridgingOk = true) :
    Event.run scrollBuildCmd (pathJoin ROOT d) ∉ (mainScript env false).events ∧
      Event.warn d ∉ (mainScript env false).events ∧
      exitStatus (mainScript env false) = 0 := by
  have hb : (build env).2 = true := build_ok_iff.mpr ⟨h1, h3, h4⟩
  refine ⟨?_, ?_, by simp [exitStatus, mainScript_ok hb]⟩
  · rw [mainScript_ok_events_false h1 h3 h4]
    intro hmem
    rcases List.mem_cons.mp hmem with heq | hmem
    · injection heq with hc hp
      exact absurd hc (by decide)
    rcases List.mem_cons.mp hmem with heq | hmem
    · injection heq with hc hp
      exact pathJoin_ne_ROOT d hp
    rcases List.mem_cons.mp hmem with heq | hmem
    · exact Event.noConfusion heq
    rcases List.mem_append.mp hmem with hmem | hmem
    · obtain ⟨d', hd', _, hp, hex⟩ := run_mem_subfolderLoop.mp hmem
      obtain rfl : d = d' := pathJoin_right_inj hp
      rw [hne] at hex
      exact Bool.noConfusion hex
    · exact Event.noConfusion (List.mem_singleton.mp hmem)
  · rw [mainScript_ok_events_false h1 h3 h4]
    intro hmem
    rcases List.mem_cons.mp hmem with heq | hmem
    · exact Event.noConfusion heq
    rcases List.mem_cons.mp hmem with heq | hmem
    · exact Event.noConfusion heq
    rcases List.mem_cons.mp hmem with heq | hmem
    · exact Event.noConfusion heq
    rcases List.mem_append.mp hmem with hmem | hmem
    · obtain ⟨_, hex, _⟩ := warn_mem_subfolderLoop.mp hmem
      rw [hne] at hex
      exact Bool.noConfusion hex
    · exact Event.noConfusion (List.mem_singleton.mp hmem)

/-- C8 witness: at `envB` the pages folder is missing, and the theorem
applies. -/
theorem missing_subfolder_silently_skipped_witness :
    "pages" ∈ SUBFOLDERS ∧ envB.dirExists (pathJoin ROOT "pages") = false ∧
      (Event.run scrollBuildCmd (pathJoin ROOT "pages") ∉
          (mainScript envB false).events ∧
        Event.warn "pages" ∉ (mainScript envB false).events ∧
        exitStatus (mainScript envB false) = 0) :=
  ⟨by decide, by decide,
    missing_subfolder_silently_skipped envB "pages" (by decide) (by decide)
      (by decide) (by decide) rfl⟩

/-! ### The console events as unit reports (for the summary claim) -/

/-- Does a console event name the given unit?  Only the per-unit warning
line carries a unit name. -/
def mentionsUnit : Event → String → Bool
  | Event.warn d, u => d == u
  | _, _ => false

/-- Is this event a generator invocation? -/
def isGenRun : Event → Bool
  | Event.run _ _ => true
  | _ => false

/-- The events after the last generator invocation of a trace: the only
region where a final summary could appear. -/
def finalSummary (l : List Event) : List Event :=
  (l.reverse.takeWhile (fun e => !(isGenRun e))).reverse

/-- C4 counterexample: in the run [root, bridging, blog(success),
books(fail), concepts(success)] the books unit fails and the exit code is 0,
but the only output after the last generator invocation is the bare
completion line, which names no unit: the driver emits no final summary
listing the failed units. -/
theorem no_final_summary_listing_failed_units :
    Event.warn "books" ∈ (mainScript envB false).events ∧
      exitStatus (mainScript envB false) = 0 ∧
      finalSummary (mainScript envB false).events = [Event.complete] ∧
      (finalSummary (mainScript envB false).events).filter
          (fun e => mentionsUnit e "books") = [] := by
  decide

/-- C4 amended: failed subfolders are reported only by per-unit warning
lines emitted at failure time; the trace ends with the bare completion line
(which names no unit) and the exit code is 0. -/
theorem failed_units_reported_inline_only (env : Env)
    (h1 : env.execOk parsersCmd ROOT = true)
    (h3 : env.execOk scrollBuildCmd ROOT = true)
    (h4 : env.bridgingOk = true) :
    (∀ d ∈ SUBFOLDERS, env.dirExists (pathJoin ROOT d) = true →
        env.execOk scrollBuildCmd (pathJoin ROOT d) = false →
        Event.warn d ∈ (mainScript env false).events) ∧
      (mainScript env false).events.getLast? = some Event.complete ∧
      (∀ u, mentionsUnit Event.complete u = false) ∧
      exitStatus (mainScript env false) = 0 := by
  refine ⟨?_, ?_, fun u => rfl,
    by simp [exitStatus, mainScript_ok (build_ok_iff.mpr ⟨h1, h3, h4⟩)]⟩
  · intro d hd hex hfail
    rw [mainScript_ok_events_false h1 h3 h4]
    refine List.mem_cons_of_mem _ (List.mem_cons_of_mem _ (List.mem_cons_of_mem _
      (List.mem_append_left _ ?_)))
    exact warn_mem_subfolderLoop.mpr ⟨hd, hex, hfail⟩
  · rw [mainScript_ok_events_false h1 h3 h4]
    have hsplit : Event.run parsersCmd ROOT :: Event.run scrollBuildCmd ROOT ::
        Event.bridging :: (subfolderLoop env SUBFOLDERS ++ [Event.complete]) =
        (Event.run parsersCmd ROOT :: Event.run scrollBuildCmd ROOT ::
          Event.bridging :: subfolderLoop env SUBFOLDERS) ++ [Event.complete] := by
      simp
    rw [hsplit, List.getLast?_concat]

/-- C4 amended witness: the hypotheses hold at `envB` and the theorem
applies. -/
theorem failed_units_reported_inline_only_witness :
    envB.execOk parsersCmd ROOT = true ∧ envB.execOk scrollBuildCmd ROOT = true ∧
      envB.bridgingOk = true ∧
      ((∀ d ∈ SUBFOLDERS, envB.dirExists (pathJoin ROOT d) = true →
          envB.execOk scrollBuildCmd (pathJoin ROOT d) = false →
          Event.warn d ∈ (mainScript envB false).events) ∧
        (mainScript envB false).events.getLast? = some Event.complete ∧
        (∀ u, mentionsUnit Event.complete u = false) ∧
        exitStatus (mainScript envB false) = 0) :=
  ⟨by decide, by decide, rfl,
    failed_units_reported_inline_only envB (by decide) (by decide) rfl⟩

lemma spawnServer_not_mem_build (env : Env) :
    Event.spawnServer ∉ (build env).1 := by
  intro hmem
  by_cases h1 : env.execOk parsersCmd ROOT <;>
    by_cases h3 : env.execOk scrollBuildCmd ROOT <;>
      by_cases h4 : env.bridgingOk <;>
        simp [build, h1, h3, h4] at hmem <;>
          rcases mem_subfolderLoop_run_or_warn hmem with ⟨c, p, he⟩ | ⟨u, he⟩ <;>
            exact Event.noConfusion he

lemma killServer_not_mem_build (env : Env) :
    Event.killServer ∉ (build env).1 := by
  intro hmem
  by_cases h1 : env.execOk parsersCmd ROOT <;>
    by_cases h3 : env.execOk scrollBuildCmd ROOT <;>
      by_cases h4 : env.bridgingOk <;>
        simp [build, h1, h3, h4] at hmem <;>
          rcases mem_subfolderLoop_run_or_warn hmem with ⟨c, p, he⟩ | ⟨u, he⟩ <;>
            exact Event.noConfusion he

lemma mainScript_ok_events_true {env : Env} (h : (build env).2 = true) :
    (mainScript env true).events =
      Event.writeIndexHtml :: Event.spawnServer :: (build env).1 := by
  rw [mainScript_ok h]
  simp

/-- C5 counterexample: with the root build failing under `--serve`, the
catch handler kills the placeholder server before exiting: it does not stay
up, contrary to the claim. -/
theorem placeholder_killed_on_fatal_failure_counterexample :
    envF.execOk scrollBuildCmd ROOT = false ∧
      (mainScript envF true).serverAlive = false ∧
      Event.killServer ∈ (mainScript envF true).events ∧
      (mainScript envF true).exit = some 1 := by
  decide

/-- C5 amended: on a fatal build failure (root folder build or bridging
step) under `--serve` the catch handler kills the placeholder server and
exits with status 1, so the public port stops answering. -/
theorem placeholder_killed_on_fatal_failure (env : Env)
    (h : env.execOk scrollBuildCmd ROOT = false ∨ env.bridgingOk = false) :
    (mainScript env true).serverAlive = false ∧
      Event.killServer ∈ (mainScript env true).events ∧
      (mainScript env true).exit = some 1 := by
  have hb2 : (build env).2 = false := by
    by_cases hb : (build env).2 = true
    · obtain ⟨h1, h3, h4⟩ := build_ok_iff.mp hb
      rcases h with h | h
      · rw [h3] at h
        exact Bool.noConfusion h
      · rw [h4] at h
        exact Bool.noConfusion h
    · simpa using hb
  rw [mainScript_fail hb2]
  exact ⟨rfl, List.mem_append_right _ (by simp), rfl⟩

/-- C5 amended witness: at `envG` the root build succeeds but the bridging
step fails, and the theorem applies. -/
theorem placeholder_killed_on_fatal_failure_witness :
    (envG.execOk scrollBuildCmd ROOT = false ∨ envG.bridgingOk = false) ∧
      ((mainScript envG true).serverAlive = false ∧
        Event.killServer ∈ (mainScript envG true).events ∧
        (mainScript envG true).exit = some 1) :=
  ⟨Or.inr rfl, placeholder_killed_on_fatal_failure envG (Or.inr rfl)⟩

/-- C6 counterexample: with port 3000 already bound at the start of a
`--serve` run, the script still performs all build work and exits 0: nothing
aborts before the build steps, contrary to the claim. -/
theorem no_port_bind_check_counterexample :
    envP.portBound = true ∧
      Event.run parsersCmd ROOT ∈ (mainScript envP true).events ∧
      Event.run scrollBuildCmd ROOT ∈ (mainScript envP true).events ∧
      exitStatus (mainScript envP true) = 0 := by
  decide

/-- C6 amended: the script never consults the port state: the run is
identical whether or not the port is already bound (the spawned server
child has its stdio ignored and its exit status is never checked). -/
theorem run_independent_of_port_state (p : String) (de : String → Bool)
    (ex : String → String → Bool) (bo : Bool) (b b' : Bool) (serve : Bool) :
    mainScript ⟨p, de, ex, bo, b⟩ serve = mainScript ⟨p, de, ex, bo, b'⟩ serve :=
  rfl

/-- C7 counterexample: after a fully successful build under `--serve`, the
placeholder server process is never terminated and keeps running, contrary
to the claimed handoff. -/
theorem placeholder_not_terminated_counterexample :
    (build envOK).2 = true ∧
      (mainScript envOK true).serverAlive = true ∧
      Event.killServer ∉ (mainScript envOK true).events := by
  decide

/-- C7 amended: on build completion under `--serve` the placeholder server
process is not terminated and no handoff occurs: the same process keeps
serving, and it is killed only by the SIGINT handler registered at
completion, which then exits with status 0. -/
theorem placeholder_kept_after_completion (env : Env)
    (h : (build env).2 = true) :
    (mainScript env true).serverAlive = true ∧
      Event.killServer ∉ (mainScript env true).events ∧
      (mainScript env true).sigintRegistered = true ∧
      (handleSigint (mainScript env true)).serverAlive = false ∧
      (handleSigint (mainScript env true)).exit = some 0 := by
  refine ⟨by simp [mainScript_ok h], ?_, by simp [mainScript_ok h],
    by simp [handleSigint, mainScript_ok h], by simp [handleSigint, mainScript_ok h]⟩
  rw [mainScript_ok_events_true h]
  intro hmem
  rcases List.mem_cons.mp hmem with he | hmem
  · exact Event.noConfusion he
  rcases List.mem_cons.mp hmem with he | hmem
  · exact Event.noConfusion he
  · exact killServer_not_mem_build env hmem

/-- C7 amended witness: the hypothesis holds at `envOK` and the theorem
applies. -/
theorem placeholder_kept_after_completion_witness :
    (build envOK).2 = true ∧
      ((mainScript envOK true).serverAlive = true ∧
        Event.killServer ∉ (mainScript envOK true).events ∧
        (mainScript envOK true).sigintRegistered = true ∧
        (handleSigint (mainScript envOK true)).serverAlive = false ∧
        (handleSigint (mainScript envOK true)).exit = some 0) :=
  ⟨rfl, placeholder_kept_after_completion envOK rfl⟩

/-- C9: under `--serve` the maintenance page is written to the root
`index.html` (overwriting whatever was there) and the single server spawn
precedes every build event; on completion there is no kill and no second
spawn: the same spawned process is still serving, so the swap is only the
regeneration of `index.html` by the build. -/
theorem maintenance_write_then_single_server (env : Env) (fs : FS)
    (h : (build env).2 = true) :
    writeMaintenancePage fs indexHtmlPath = some maintenanceHtml ∧
      (mainScript env true).events =
        Event.writeIndexHtml :: Event.spawnServer :: (build env).1 ∧
      (mainScript env true).events.count Event.spawnServer = 1 ∧
      Event.killServer ∉ (mainScript env true).events ∧
      (mainScript env true).serverAlive = true := by
  refine ⟨by simp [writeMaintenancePage, FS.write], mainScript_ok_events_true h,
    ?_, ?_, by simp [mainScript_ok h]⟩
  · have hc0 : (build env).1.count Event.spawnServer = 0 :=
      List.count_eq_zero.mpr (spawnServer_not_mem_build env)
    rw [mainScript_ok_events_true h]
    simp [hc0]
  · rw [mainScript_ok_events_true h]
    intro hmem
    rcases List.mem_cons.mp hmem with he | hmem
    · exact Event.noConfusion he
    rcases List.mem_cons.mp hmem with he | hmem
    · exact Event.noConfusion he
    · exact killServer_not_mem_build env hmem

/-- C9 witness: the hypothesis holds at `envOK` with the empty filesystem
and the theorem applies. -/
theorem maintenance_write_then_single_server_witness :
    (build envOK).2 = true ∧
      (writeMaintenancePage fsEmpty indexHtmlPath = some maintenanceHtml ∧
        (mainScript envOK true).events =
          Event.writeIndexHtml :: Event.spawnServer :: (build envOK).1 ∧
        (mainScript envOK true).events.count Event.spawnServer = 1 ∧
        Event.killServer ∉ (mainScript envOK true).events ∧
        (mainScript envOK true).serverAlive = true) :=
  ⟨rfl, maintenance_write_then_single_server envOK fsEmpty rfl⟩

/-- C10: on any platform other than win32, the scroll-cli compatibility
patch step returns immediately and leaves the filesystem unchanged. -/
theorem patch_noop_off_windows (platform : String) (fs : FS)
    (h : platform ≠ "win32") :
    patchScrollCliIfNeeded platform fs = fs := by
  unfold patchScrollCliIfNeeded
  rw [if_pos h]

/-- C10 witness: the hypothesis holds for the linux platform and the theorem
applies. -/
theorem patch_noop_off_windows_witness :
    ("linux" : String) ≠ "win32" ∧
      patchScrollCliIfNeeded "linux" fsEmpty = fsEmpty :=
  ⟨by decide, patch_noop_off_windows "linux" fsEmpty (by decide)⟩

end PldbBuild
